import Mathlib

/-!
# Verification development for `src/main.js` (3D viewer: model loading, decals, recolouring)

The module-level variables `scene`, `currentModel`, `decalMesh`, `mainMesh` of `main.js`
are embedded as an explicit session `State`.  Asynchronous loads (`gltfLoader.load`,
`textureLoader.load`) are embedded as lists of in-flight requests; their callbacks are
separate events that may be delivered in any order.  Numbers are exact rationals.
-/

namespace Viewer

/-! ## Data model -/

/-- Three-component vector (`THREE.Vector3`), exact rational components. -/
structure Vector3 where
  x : ℚ
  y : ℚ
  z : ℚ
deriving DecidableEq

/-- Euler rotation (`THREE.Euler`); each angle is stored as a rational multiple of pi,
so `Math.PI/2` is the value `1/2`. -/
structure Euler where
  xOverPi : ℚ
  yOverPi : ℚ
  zOverPi : ℚ
deriving DecidableEq

/-- Colour value (`THREE.Color`), the result of parsing a `colorHex` argument. -/
structure Color where
  r : ℚ
  g : ℚ
  b : ℚ
deriving DecidableEq

/-- Component-wise scaling, `Color.multiplyScalar`. -/
def Color.multiplyScalar (c : Color) (k : ℚ) : Color :=
  { r := c.r * k, g := c.g * k, b := c.b * k }

/-- Material of a model mesh (`THREE.MeshStandardMaterial`). -/
structure MeshStandardMaterial where
  color : Color
  emissive : Color
  emissiveIntensity : ℚ
  roughness : ℚ
  metalness : ℚ
deriving DecidableEq

/-- Constructor `new THREE.MeshStandardMaterial({ color, emissive, emissiveIntensity, roughness })`
as called in `changeModelColor`: the four given parameters, the library default elsewhere. -/
def MeshStandardMaterial.new (color emissive : Color) (emissiveIntensity roughness : ℚ) :
    MeshStandardMaterial :=
  { color := color, emissive := emissive, emissiveIntensity := emissiveIntensity,
    roughness := roughness, metalness := 0 }

/-- Node of a loaded hierarchy (`THREE.Object3D`): identity, the `isMesh` flag, the
material slot and the children. -/
inductive Object3D where
  | mk (id : Nat) (isMesh : Bool) (material : Option MeshStandardMaterial)
      (children : List Object3D) : Object3D

namespace Object3D

/-- Identity of a node. -/
def id : Object3D → Nat
  | mk i _ _ _ => i

/-- Flag `child.isMesh`. -/
def isMesh : Object3D → Bool
  | mk _ b _ _ => b

/-- Slot `child.material`. -/
def material : Object3D → Option MeshStandardMaterial
  | mk _ _ m _ => m

/-- Children of a node. -/
def children : Object3D → List Object3D
  | mk _ _ _ cs => cs

mutual
/-- Method `Object3D.traverse(callback)`: the callback runs on the node itself, then the
traversal descends into each child in order (depth-first, pre-order).  The callback sees
the node and the ambient state; it returns the node's material slot (the only node field
a callback of `main.js` assigns) and the new ambient state. -/
def traverse {σ : Type} (cb : Object3D → σ → Option MeshStandardMaterial × σ) :
    Object3D → σ → Object3D × σ
  | mk i b m cs, st =>
    let r := cb (mk i b m cs) st
    let rs := traverseList cb cs r.2
    (mk i b r.1 rs.1, rs.2)
/-- Loop `for (let i = 0; i < children.length; i++) children[i].traverse(callback)`. -/
def traverseList {σ : Type} (cb : Object3D → σ → Option MeshStandardMaterial × σ) :
    List Object3D → σ → List Object3D × σ
  | [], st => ([], st)
  | c :: cs, st =>
    let r := traverse cb c st
    let rs := traverseList cb cs r.2
    (r.1 :: rs.1, rs.2)
end

mutual
/-- Nodes of a hierarchy in depth-first pre-order. -/
def preorder : Object3D → List Object3D
  | mk i b m cs => mk i b m cs :: preorderList cs
/-- Pre-order listing of a forest. -/
def preorderList : List Object3D → List Object3D
  | [] => []
  | c :: cs => preorder c ++ preorderList cs
end

end Object3D

/-! ## Scene graph and session state -/

/-- Direct children of the `scene`, by kind and identity. -/
inductive SceneObj where
  | light (n : Nat)
  | model (id : Nat)
  | decal (id : Nat)
  | axes (id : Nat)
deriving DecidableEq

/-- Recognises the root of a loaded model. -/
def SceneObj.isModel : SceneObj → Bool
  | .model _ => true
  | _ => false

/-- Recognises a decal overlay mesh. -/
def SceneObj.isDecal : SceneObj → Bool
  | .decal _ => true
  | _ => false

/-- Method `scene.remove(object)`: the first occurrence of the object is spliced out of
the children, nothing happens when it is not a child. -/
def sceneRemove (o : SceneObj) (children : List SceneObj) : List SceneObj :=
  children.erase o

/-- Method `scene.add(object)`: the object is detached from its parent (the scene is the
only parent used in `main.js`) and pushed at the end of the children. -/
def sceneAdd (o : SceneObj) (children : List SceneObj) : List SceneObj :=
  children.erase o ++ [o]

/-- Models among the children of the scene. -/
def modelsIn (children : List SceneObj) : List SceneObj :=
  children.filter SceneObj.isModel

/-- Decal overlays among the children of the scene. -/
def decalsIn (children : List SceneObj) : List SceneObj :=
  children.filter SceneObj.isDecal

/-- Values of `texture.colorSpace`. -/
inductive ColorSpace where
  | noColorSpace
  | srgbColorSpace
deriving DecidableEq

/-- Values of `texture.wrapS` and `texture.wrapT`. -/
inductive Wrapping where
  | repeatWrapping
  | clampToEdgeWrapping
  | mirroredRepeatWrapping
deriving DecidableEq

/-- Values of `material.side`. -/
inductive Side where
  | frontSide
  | backSide
  | doubleSide
deriving DecidableEq

/-- Image texture (`THREE.Texture`), identified by the URL it was loaded from. -/
structure Texture where
  url : String
  colorSpace : ColorSpace
  needsUpdate : Bool
  wrapS : Wrapping
  wrapT : Wrapping
deriving DecidableEq

/-- Texture handed to the `onLoad` callback of `textureLoader.load(url, ...)`. -/
def Texture.loaded (url : String) : Texture :=
  { url := url, colorSpace := .noColorSpace, needsUpdate := true,
    wrapS := .clampToEdgeWrapping, wrapT := .clampToEdgeWrapping }

/-- Material of a decal overlay (`THREE.MeshBasicMaterial`). -/
structure MeshBasicMaterial where
  id : Nat
  map : Texture
  transparent : Bool
  opacity : ℚ
  side : Side
  polygonOffset : Bool
  polygonOffsetFactor : ℤ
  depthWrite : Bool
deriving DecidableEq

/-- Geometry of a decal overlay, `new DecalGeometry(mesh, position, orientation, size)`:
the arguments of the projection are kept, `mesh` is the identity of the projected-on mesh. -/
structure DecalGeometry where
  id : Nat
  mesh : Nat
  position : Vector3
  orientation : Euler
  size : Vector3
deriving DecidableEq

/-- Decal overlay, `new THREE.Mesh(decalGeo, decalMaterial)`. -/
structure DecalMesh where
  id : Nat
  geometry : DecalGeometry
  material : MeshBasicMaterial
deriving DecidableEq

/-- Loaded model: the hierarchy `gltf.scene` with the transform set by `loadModel`. -/
structure Model where
  root : Object3D
  scale : Vector3
  position : Vector3

/-- Result of a successful `gltfLoader.load`: the hierarchy `gltf.scene`, and the size
that `new THREE.Box3().setFromObject(gltf.scene).getSize(...)` yields for it. -/
structure GLTF where
  scene : Object3D
  boxSize : Vector3

/-- Session state: the scene's children, the three module-level variables, the loads in
flight, the identity counter for constructed objects, the identities of the geometries
and materials that were disposed, the alerts shown and the errors logged. -/
structure State where
  scene : List SceneObj
  currentModel : Option Model
  decalMesh : Option DecalMesh
  mainMesh : Option Nat
  pendingModels : List String
  pendingTextures : List String
  nextId : Nat
  disposedGeometries : List Nat
  disposedMaterials : List Nat
  alerts : List String
  errors : List (String × String)

/-! ## Operations of `main.js` -/

/-- Expression `Math.max(size.x, size.y, size.z)`. -/
def maxDim (size : Vector3) : ℚ :=
  max (max size.x size.y) size.z

/-- Size of the bounding box of a model under its transform: the root carries a uniform
scale and a translation only, so every extent is multiplied by the scale. -/
def Model.normalizedSize (m : Model) (boxSize : Vector3) : Vector3 :=
  { x := m.scale.x * boxSize.x, y := m.scale.y * boxSize.y, z := m.scale.z * boxSize.z }

/-- Function `loadModel(url)`, synchronous part (lines 55-73): the old model is removed
from the scene, the old decal is removed and disposed, `mainMesh` is reset, and the
request is handed to the loader. -/
def loadModel (url : String) (s : State) : State :=
  let s1 : State :=
    match s.currentModel with
    | some m => { s with scene := sceneRemove (.model m.root.id) s.scene, currentModel := none }
    | none => s
  let s2 : State :=
    match s1.decalMesh with
    | some d =>
      { s1 with scene := sceneRemove (.decal d.id) s1.scene,
                disposedGeometries := s1.disposedGeometries ++ [d.geometry.id],
                disposedMaterials := s1.disposedMaterials ++ [d.material.id],
                decalMesh := none }
    | none => s1
  { s2 with mainMesh := none, pendingModels := s2.pendingModels ++ [url] }

/-- Callback of `model.traverse` in `loadModel` (lines 87-91): the ambient state is the
variable `mainMesh`; no node is modified. -/
def loadModel.visit (child : Object3D) (mainMesh : Option Nat) :
    Option MeshStandardMaterial × Option Nat :=
  (child.material, if child.isMesh && mainMesh.isNone then some child.id else mainMesh)

/-- Success callback of `gltfLoader.load` in `loadModel` (lines 73-98).  The quotient
`20 / maxDim` is exact; for `maxDim = 0` it is `0` here, where JavaScript gives
`Infinity`. -/
def loadModel.onLoad (gltf : GLTF) (s : State) : State :=
  let k : ℚ := 20 / maxDim gltf.boxSize
  let r := gltf.scene.traverse loadModel.visit s.mainMesh
  let model : Model :=
    { root := r.1, scale := { x := k, y := k, z := k }, position := { x := 0, y := -5, z := 0 } }
  let children := sceneAdd (.model gltf.scene.id) s.scene
  { s with scene := sceneAdd (.axes s.nextId) children,
           currentModel := some model,
           mainMesh := r.2,
           nextId := s.nextId + 1 }

/-- Function `applyDecal(imageUrl)`, synchronous part (lines 104-113). -/
def applyDecal (imageUrl : String) (s : State) : State :=
  if s.currentModel.isNone || s.mainMesh.isNone then
    { s with alerts := s.alerts ++ ["请先加载模型！"] }
  else
    let s1 : State :=
      match s.decalMesh with
      | some d => { s with scene := sceneRemove (.decal d.id) s.scene }
      | none => s
    { s1 with pendingTextures := s1.pendingTextures ++ [imageUrl] }

/-- Success callback of `textureLoader.load` in `applyDecal` (lines 115-146).  With
`mainMesh` null the constructor `DecalGeometry` reads `mesh.geometry` of null and throws,
so the callback ends after the material was constructed and installs nothing. -/
def applyDecal.onLoad (texture : Texture) (s : State) : State :=
  let texture : Texture :=
    { texture with colorSpace := .srgbColorSpace, needsUpdate := true,
                   wrapS := .clampToEdgeWrapping, wrapT := .clampToEdgeWrapping }
  let decalMaterial : MeshBasicMaterial :=
    { id := s.nextId, map := texture, transparent := true, opacity := 1, side := .frontSide,
      polygonOffset := true, polygonOffsetFactor := -4, depthWrite := false }
  let pos : Vector3 := { x := 10, y := 1, z := 1 }
  let rot : Euler := { xOverPi := 0, yOverPi := 1 / 2, zOverPi := 0 }
  let size : Vector3 := { x := 15, y := 15, z := 20 }
  match s.mainMesh with
  | none => { s with nextId := s.nextId + 1 }
  | some mesh =>
    let decalGeo : DecalGeometry :=
      { id := s.nextId + 1, mesh := mesh, position := pos, orientation := rot, size := size }
    let decal : DecalMesh := { id := s.nextId + 2, geometry := decalGeo, material := decalMaterial }
    { s with decalMesh := some decal,
             scene := sceneAdd (.decal decal.id) s.scene,
             nextId := s.nextId + 3 }

/-- Error callback of `textureLoader.load` in `applyDecal` (line 148). -/
def applyDecal.onError (err : String) (s : State) : State :=
  { s with errors := s.errors ++ [("贴图加载失败：", err)] }

/-- Callback of `currentModel.traverse` in `changeModelColor` (lines 158-165). -/
def changeModelColor.visit (colorHex : Color) (child : Object3D) (u : Unit) :
    Option MeshStandardMaterial × Unit :=
  (if child.isMesh then
      some (MeshStandardMaterial.new colorHex (colorHex.multiplyScalar 0.2) 0.5 0.5)
    else child.material, u)

/-- Function `changeModelColor(colorHex)` (lines 155-167). -/
def changeModelColor (colorHex : Color) (s : State) : State :=
  match s.currentModel with
  | none => s
  | some m =>
    let r := m.root.traverse (changeModelColor.visit colorHex) ()
    let model : Model := { m with root := r.1 }
    { s with currentModel := some model }

/-! ## Event loop -/

/-- Events of a session: the three button actions, and the completion (success or
failure) of the `i`-th load in flight of either kind. -/
inductive Event where
  | loadModel (url : String)
  | applyDecal (imageUrl : String)
  | changeModelColor (colorHex : Color)
  | gltfLoaded (i : Nat) (gltf : GLTF)
  | gltfFailed (i : Nat)
  | textureLoaded (i : Nat)
  | textureFailed (i : Nat) (err : String)

/-- One turn of the event loop.  A completion for a request that is not in flight does
nothing; `gltfLoader.load` is given no error callback, so a failed model load only ends
the request. -/
def step (s : State) : Event → State
  | .loadModel url => loadModel url s
  | .applyDecal imageUrl => applyDecal imageUrl s
  | .changeModelColor colorHex => changeModelColor colorHex s
  | .gltfLoaded i gltf =>
    match s.pendingModels[i]? with
    | some _ => loadModel.onLoad gltf { s with pendingModels := s.pendingModels.eraseIdx i }
    | none => s
  | .gltfFailed i => { s with pendingModels := s.pendingModels.eraseIdx i }
  | .textureLoaded i =>
    match s.pendingTextures[i]? with
    | some url =>
      applyDecal.onLoad (Texture.loaded url) { s with pendingTextures := s.pendingTextures.eraseIdx i }
    | none => s
  | .textureFailed i err =>
    match s.pendingTextures[i]? with
    | some _ => applyDecal.onError err { s with pendingTextures := s.pendingTextures.eraseIdx i }
    | none => s

/-- Runs a sequence of events. -/
def run (s : State) (es : List Event) : State :=
  es.foldl step s

/-- Session before the last line of `main.js`: the scene holds the ambient light and the
two directional lights, the three variables are null. -/
def init : State :=
  { scene := [.light 0, .light 1, .light 2], currentModel := none, decalMesh := none,
    mainMesh := none, pendingModels := [], pendingTextures := [], nextId := 0,
    disposedGeometries := [], disposedMaterials := [], alerts := [], errors := [] }

/-- Session once the module has run: line 200 requests the default model. -/
def boot : State :=
  loadModel "models/model1.glb" init

/-- States the session can be in: `boot` followed by any sequence of events. -/
def Reachable (s : State) : Prop :=
  ∃ es : List Event, run boot es = s

/-- An event respects the one-load-at-a-time discipline when `loadModel` is not called
while a model load is in flight and `applyDecal` is not called while an image load is in
flight.  Completions and recolouring are always allowed. -/
def Event.admissible (s : State) : Event → Bool
  | .loadModel _ => s.pendingModels.isEmpty
  | .applyDecal _ => s.pendingTextures.isEmpty
  | _ => true

/-- Runs a sequence of events under the one-load-at-a-time discipline; `none` when some
event of the sequence breaks it. -/
def runSerial (s : State) : List Event → Option State
  | [] => some s
  | e :: es => if e.admissible s then runSerial (step s e) es else none

/-- The scene agrees with the session variables: it holds no model other than one
occurrence of `currentModel` and no decal overlay other than one occurrence of
`decalMesh`. -/
def Consistent (s : State) : Prop :=
  (modelsIn s.scene = [] ∨
      ∃ m, s.currentModel = some m ∧ modelsIn s.scene = [SceneObj.model m.root.id]) ∧
  (decalsIn s.scene = [] ∨
      ∃ d, s.decalMesh = some d ∧ decalsIn s.scene = [SceneObj.decal d.id])

/-- First mesh of a hierarchy in depth-first pre-order, if any. -/
def firstMesh (o : Object3D) : Option Object3D :=
  o.preorder.find? Object3D.isMesh

/-! ## Vocabulary of the statements -/

/-- Fields of a node other than its children. -/
def Object3D.header (o : Object3D) : Nat × Bool × Option MeshStandardMaterial :=
  (o.id, o.isMesh, o.material)

/-- Material that `changeModelColor` constructs for the colour `c`. -/
def recolorMaterial (c : Color) : MeshStandardMaterial :=
  { color := c, emissive := { r := c.r * 0.2, g := c.g * 0.2, b := c.b * 0.2 },
    emissiveIntensity := 0.5, roughness := 0.5, metalness := 0 }

/-- Largest bounding-box dimension, stated without `Math.max`: `d` is the largest
dimension of a box of size `v` when no extent exceeds `d` and `d` is one of the three
extents. -/
def IsLargestDim (v : Vector3) (d : ℚ) : Prop :=
  (v.x ≤ d ∧ v.y ≤ d ∧ v.z ≤ d) ∧ (d = v.x ∨ d = v.y ∨ d = v.z)

/-- Invariant of the runs under the one-load-at-a-time discipline: the scene agrees with
the session variables, at most one load of each kind is in flight, no model is in the
scene and `mainMesh` is null while a model load is in flight, and no decal overlay is in
the scene while an image load is in flight. -/
def SerialInv (s : State) : Prop :=
  Consistent s ∧ s.pendingModels.length ≤ 1 ∧ s.pendingTextures.length ≤ 1 ∧
  (s.pendingModels ≠ [] → modelsIn s.scene = [] ∧ s.mainMesh = none) ∧
  (s.pendingTextures ≠ [] → decalsIn s.scene = [])

/-! ## Sample assets used in concrete runs -/

/-- Sample asset: a group with one mesh child, bounding box 4 x 10 x 2. -/
def gltfA : GLTF :=
  { scene := .mk 100 false none [.mk 101 true none []], boxSize := { x := 4, y := 10, z := 2 } }

/-- Sample asset: a group holding a group with a mesh, then a second mesh. -/
def gltfB : GLTF :=
  { scene := .mk 200 false none [.mk 201 false none [.mk 202 true none []], .mk 203 true none []],
    boxSize := { x := 5, y := 5, z := 8 } }

/-- Sample asset: a single mesh. -/
def gltfC : GLTF :=
  { scene := .mk 300 true none [], boxSize := { x := 1, y := 2, z := 3 } }

/-- Run with two overlapping model loads: the default model is still loading when a
second model is requested; both loads then succeed, in request order. -/
def overlappingLoads : List Event :=
  [.loadModel "models/model2.glb", .gltfLoaded 0 gltfA, .gltfLoaded 0 gltfB]

/-- Run with two overlapping image loads on a loaded model. -/
def overlappingDecals : List Event :=
  [.gltfLoaded 0 gltfA, .applyDecal "patterns/p1.png", .applyDecal "patterns/p2.png",
   .textureLoaded 0, .textureLoaded 0]

/-- Run without overlap: the default model loads, a decal is applied, a second model is
requested and loads. -/
def serialRun : List Event :=
  [.gltfLoaded 0 gltfA, .applyDecal "patterns/p1.png", .textureLoaded 0,
   .changeModelColor { r := 1, g := 0, b := 0 }, .loadModel "models/model2.glb",
   .gltfLoaded 0 gltfB]

/-- Run without overlap: the default model loads and a first decal is applied. -/
def oneDecal : List Event :=
  [.gltfLoaded 0 gltfA, .applyDecal "patterns/p1.png", .textureLoaded 0]

/-- Run without overlap: the default model loads, a first decal is applied, then a
second decal is applied. -/
def twoDecals : List Event :=
  oneDecal ++ [.applyDecal "patterns/p2.png", .textureLoaded 0]

/-- Run without overlap: a first decal is applied, then the image of a second
`applyDecal` fails to load. -/
def decalThenFailure : List Event :=
  oneDecal ++ [.applyDecal "patterns/missing.png", .textureFailed 0 "404"]

/-! ## Traversal lemmas -/

namespace Object3D

mutual
theorem traverse_visit_main (o : Object3D) (mm : Option Nat) :
    traverse loadModel.visit o mm =
      (o, match mm with
          | some x => some x
          | none => (o.preorder.find? Object3D.isMesh).map Object3D.id) := by
  cases o with
  | mk i b m cs =>
    have ih := traverseList_visit_main cs
    cases mm with
    | some x =>
      simp [traverse, loadModel.visit, ih, material]
    | none =>
      cases b with
      | true => simp [traverse, loadModel.visit, ih, material, isMesh, preorder, id]
      | false => simp [traverse, loadModel.visit, ih, material, isMesh, preorder]
theorem traverseList_visit_main (cs : List Object3D) (mm : Option Nat) :
    traverseList loadModel.visit cs mm =
      (cs, match mm with
          | some x => some x
          | none => ((preorderList cs).find? Object3D.isMesh).map Object3D.id) := by
  cases cs with
  | nil => cases mm <;> simp [traverseList, preorderList]
  | cons c cs =>
    have ih1 := traverse_visit_main c
    have ih2 := traverseList_visit_main cs
    cases mm with
    | some x => simp [traverseList, ih1, ih2]
    | none =>
      simp only [traverseList, ih1, ih2, preorderList, List.find?_append]
      cases h : List.find? isMesh c.preorder <;> simp
end

/-- Header of a node after recolouring with `c`. -/
theorem header_visit (c : Color) (i : Nat) (b : Bool) (m : Option MeshStandardMaterial)
    (cs : List Object3D) :
    (changeModelColor.visit c (mk i b m cs) ()).1 =
      if b then some (recolorMaterial c) else m := by
  cases b <;>
    simp [changeModelColor.visit, isMesh, material, recolorMaterial, MeshStandardMaterial.new,
      Color.multiplyScalar]

mutual
theorem traverse_recolor (c : Color) (o : Object3D) :
    (traverse (changeModelColor.visit c) o ()).1.preorder.map header =
      o.preorder.map (fun n =>
        (n.id, n.isMesh, if n.isMesh then some (recolorMaterial c) else n.material)) := by
  cases o with
  | mk i b m cs =>
    have ih := traverseList_recolor c cs
    have hu : (changeModelColor.visit c (mk i b m cs) ()).2 = () := rfl
    simp only [traverse, preorder, List.map_cons, hu, ih, header, id, isMesh, material,
      header_visit]
theorem traverseList_recolor (c : Color) (cs : List Object3D) :
    (preorderList (traverseList (changeModelColor.visit c) cs ()).1).map header =
      (preorderList cs).map (fun n =>
        (n.id, n.isMesh, if n.isMesh then some (recolorMaterial c) else n.material)) := by
  cases cs with
  | nil => simp [traverseList, preorderList]
  | cons x xs =>
    have ih1 := traverse_recolor c x
    have ih2 := traverseList_recolor c xs
    have hu : (traverse (changeModelColor.visit c) x ()).2 = () := rfl
    simp only [traverseList, preorderList, List.map_append, hu, ih1, ih2]
end

/-- The root keeps its identity under any traversal. -/
theorem traverse_id {σ : Type} (cb : Object3D → σ → Option MeshStandardMaterial × σ)
    (o : Object3D) (st : σ) : (traverse cb o st).1.id = o.id := by
  cases o with
  | mk i b m cs => simp [traverse, id]

end Object3D

/-! ## Scene lemmas -/

theorem filter_erase_pos (p : SceneObj → Bool) (a : SceneObj) (l : List SceneObj)
    (h : p a = true) : (l.erase a).filter p = (l.filter p).erase a := by
  induction l with
  | nil => simp
  | cons x xs ih =>
    by_cases hx : x = a
    · subst hx; simp [h]
    · have hx' : ¬ (x == a) = true := by simpa using hx
      rw [List.erase_cons_tail hx']
      by_cases hp : p x = true
      · simp [List.filter_cons, hp, ih, List.erase_cons_tail hx']
      · simp [List.filter_cons, hp, ih]

theorem filter_erase_neg (p : SceneObj → Bool) (a : SceneObj) (l : List SceneObj)
    (h : p a = false) : (l.erase a).filter p = l.filter p := by
  induction l with
  | nil => simp
  | cons x xs ih =>
    by_cases hx : x = a
    · subst hx; simp [h]
    · have hx' : ¬ (x == a) = true := by simpa using hx
      rw [List.erase_cons_tail hx']
      simp [List.filter_cons, ih]

@[simp]
theorem modelsIn_remove_model (i : Nat) (cs : List SceneObj) :
    modelsIn (sceneRemove (.model i) cs) = (modelsIn cs).erase (.model i) :=
  filter_erase_pos _ _ _ rfl

@[simp]
theorem modelsIn_remove_decal (i : Nat) (cs : List SceneObj) :
    modelsIn (sceneRemove (.decal i) cs) = modelsIn cs :=
  filter_erase_neg _ _ _ rfl

@[simp]
theorem decalsIn_remove_model (i : Nat) (cs : List SceneObj) :
    decalsIn (sceneRemove (.model i) cs) = decalsIn cs :=
  filter_erase_neg _ _ _ rfl

@[simp]
theorem decalsIn_remove_decal (i : Nat) (cs : List SceneObj) :
    decalsIn (sceneRemove (.decal i) cs) = (decalsIn cs).erase (.decal i) :=
  filter_erase_pos _ _ _ rfl

@[simp]
theorem modelsIn_add_model (i : Nat) (cs : List SceneObj) :
    modelsIn (sceneAdd (.model i) cs) = (modelsIn cs).erase (.model i) ++ [.model i] := by
  simp [sceneAdd, modelsIn, List.filter_append, filter_erase_pos, SceneObj.isModel]

@[simp]
theorem modelsIn_add_decal (i : Nat) (cs : List SceneObj) :
    modelsIn (sceneAdd (.decal i) cs) = modelsIn cs := by
  simp [sceneAdd, modelsIn, List.filter_append, filter_erase_neg, SceneObj.isModel]

@[simp]
theorem modelsIn_add_axes (i : Nat) (cs : List SceneObj) :
    modelsIn (sceneAdd (.axes i) cs) = modelsIn cs := by
  simp [sceneAdd, modelsIn, List.filter_append, filter_erase_neg, SceneObj.isModel]

@[simp]
theorem decalsIn_add_model (i : Nat) (cs : List SceneObj) :
    decalsIn (sceneAdd (.model i) cs) = decalsIn cs := by
  simp [sceneAdd, decalsIn, List.filter_append, filter_erase_neg, SceneObj.isDecal]

@[simp]
theorem decalsIn_add_decal (i : Nat) (cs : List SceneObj) :
    decalsIn (sceneAdd (.decal i) cs) = (decalsIn cs).erase (.decal i) ++ [.decal i] := by
  simp [sceneAdd, decalsIn, List.filter_append, filter_erase_pos, SceneObj.isDecal]

@[simp]
theorem decalsIn_add_axes (i : Nat) (cs : List SceneObj) :
    decalsIn (sceneAdd (.axes i) cs) = decalsIn cs := by
  simp [sceneAdd, decalsIn, List.filter_append, filter_erase_neg, SceneObj.isDecal]

/-! ## Effect of the operations on the session variables -/

theorem loadModel_vars (url : String) (s : State) :
    (loadModel url s).currentModel = none ∧ (loadModel url s).decalMesh = none ∧
    (loadModel url s).mainMesh = none ∧
    (loadModel url s).pendingModels = s.pendingModels ++ [url] ∧
    (loadModel url s).pendingTextures = s.pendingTextures := by
  unfold loadModel
  cases hc : s.currentModel <;> cases hd : s.decalMesh <;> simp [hc, hd]

theorem loadModel_scene (url : String) (s : State) (h : Consistent s) :
    modelsIn (loadModel url s).scene = [] ∧ decalsIn (loadModel url s).scene = [] := by
  obtain ⟨hm, hdec⟩ := h
  unfold loadModel
  cases hc : s.currentModel <;> cases hd : s.decalMesh <;>
    simp [hc, hd] at hm hdec ⊢
  all_goals exact ⟨hm, hdec⟩

/-- Closed form of the load callback: the traversal leaves the hierarchy as it is and
sets `mainMesh` only when it was null. -/
theorem loadModel_onLoad_eq (gltf : GLTF) (s : State) :
    loadModel.onLoad gltf s =
      { s with
        scene := sceneAdd (.axes s.nextId) (sceneAdd (.model gltf.scene.id) s.scene),
        currentModel := some
          { root := gltf.scene,
            scale := { x := 20 / maxDim gltf.boxSize, y := 20 / maxDim gltf.boxSize,
                       z := 20 / maxDim gltf.boxSize },
            position := { x := 0, y := -5, z := 0 } },
        mainMesh :=
          match s.mainMesh with
          | some x => some x
          | none => (firstMesh gltf.scene).map Object3D.id,
        nextId := s.nextId + 1 } := by
  simp [loadModel.onLoad, Object3D.traverse_visit_main, firstMesh]

theorem length_le_one_cases {α : Type} (l : List α) (h : l.length ≤ 1) :
    l = [] ∨ ∃ a, l = [a] := by
  match l, h with
  | [], _ => exact Or.inl rfl
  | [a], _ => exact Or.inr ⟨a, rfl⟩
  | _ :: _ :: _, h => simp at h

theorem eraseIdx_length_le {α : Type} (l : List α) (i : Nat) :
    (l.eraseIdx i).length ≤ l.length := by
  induction l generalizing i with
  | nil => simp
  | cons x xs ih =>
    cases i with
    | zero => simp
    | succ j => simpa using ih j

theorem eraseIdx_append_singleton {α : Type} (l : List α) (a : α) :
    (l ++ [a]).eraseIdx l.length = l := by
  induction l with
  | nil => rfl
  | cons x xs ih => simpa using ih

/-- Synchronous part of `applyDecal` when the guard passes: only the scene (the old
overlay is removed) and the requests in flight change. -/
theorem applyDecal_pass (imageUrl : String) (s : State)
    (hg : (s.currentModel.isNone || s.mainMesh.isNone) = false) :
    (applyDecal imageUrl s).pendingTextures = s.pendingTextures ++ [imageUrl] ∧
    (applyDecal imageUrl s).mainMesh = s.mainMesh ∧
    (applyDecal imageUrl s).nextId = s.nextId ∧
    (applyDecal imageUrl s).decalMesh = s.decalMesh ∧
    (applyDecal imageUrl s).currentModel = s.currentModel := by
  cases hd : s.decalMesh <;> simp [applyDecal, hg, hd]

theorem loadModel_serialInv (url : String) (s : State) (h : SerialInv s)
    (ha : s.pendingModels = []) : SerialInv (loadModel url s) := by
  obtain ⟨hc, _, ht, _, hpt⟩ := h
  obtain ⟨v1, v2, v3, v4, v5⟩ := loadModel_vars url s
  obtain ⟨sm, sd⟩ := loadModel_scene url s hc
  refine ⟨⟨Or.inl sm, Or.inl sd⟩, ?_, ?_, ?_, ?_⟩
  · simp [v4, ha]
  · simpa [v5] using ht
  · intro _; exact ⟨sm, v3⟩
  · intro _; exact sd

theorem applyDecal_serialInv (url : String) (s : State) (h : SerialInv s)
    (ha : s.pendingTextures = []) : SerialInv (applyDecal url s) := by
  obtain ⟨⟨hm, hd⟩, hpm, _, hm0, _⟩ := h
  unfold applyDecal
  split
  · exact ⟨⟨hm, hd⟩, hpm, by simp [ha], hm0, by simp [ha]⟩
  · rename_i hg
    have hmm : s.mainMesh ≠ none := by
      intro hn; apply hg; simp [hn]
    have hpm0 : s.pendingModels = [] := by
      by_contra hne
      exact hmm (hm0 hne).2
    cases hdm : s.decalMesh with
    | none =>
      have hd0 : decalsIn s.scene = [] := by simpa [hdm] using hd
      refine ⟨⟨hm, Or.inl hd0⟩, hpm, by simp [ha], ?_, ?_⟩
      · intro hne; exact absurd hpm0 hne
      · intro _; exact hd0
    | some d =>
      have hd0 : (decalsIn s.scene).erase (.decal d.id) = [] := by
        rcases hd with hd | ⟨d1, hd1, hd2⟩
        · simp [hd]
        · rw [hdm] at hd1
          cases hd1
          simp [hd2]
      refine ⟨⟨by simpa using hm, Or.inl (by simpa using hd0)⟩, hpm, by simp [ha], ?_, ?_⟩
      · intro hne; exact absurd hpm0 hne
      · intro _; simpa using hd0

theorem gltfLoaded_serialInv (i : Nat) (gltf : GLTF) (s : State) (h : SerialInv s) :
    SerialInv (step s (.gltfLoaded i gltf)) := by
  cases hu : s.pendingModels[i]? with
  | none => simpa [step, hu] using h
  | some u =>
    simp only [step, hu]
    obtain ⟨⟨_, hd⟩, hpm, hpt, hm0, hd0⟩ := h
    have hne : s.pendingModels ≠ [] := by
      intro hnil; simp [hnil] at hu
    obtain ⟨hms, _⟩ := hm0 hne
    have herase : s.pendingModels.eraseIdx i = [] := by
      rcases length_le_one_cases _ hpm with h0 | ⟨a, h1⟩
      · exact absurd h0 hne
      · rw [h1] at hu ⊢
        cases i with
        | zero => rfl
        | succ j => simp at hu
    rw [loadModel_onLoad_eq]
    refine ⟨⟨Or.inr ⟨_, rfl, ?_⟩, ?_⟩, ?_, hpt, ?_, ?_⟩
    · simp [hms]
    · simpa using hd
    · simp [herase]
    · intro hcontra; exact absurd herase hcontra
    · intro hp; simpa using hd0 hp

theorem gltfFailed_serialInv (i : Nat) (s : State) (h : SerialInv s) :
    SerialInv (step s (.gltfFailed i)) := by
  obtain ⟨hc, hpm, hpt, hm0, hd0⟩ := h
  refine ⟨hc, le_trans (eraseIdx_length_le _ _) hpm, hpt, ?_, hd0⟩
  intro hne
  apply hm0
  intro hnil
  apply hne
  show s.pendingModels.eraseIdx i = []
  simp [hnil]

theorem textureLoaded_serialInv (i : Nat) (s : State) (h : SerialInv s) :
    SerialInv (step s (.textureLoaded i)) := by
  cases hu : s.pendingTextures[i]? with
  | none => simpa [step, hu] using h
  | some u =>
    simp only [step, hu]
    obtain ⟨⟨hm, hd⟩, hpm, hpt, hm0, hd0⟩ := h
    have hne : s.pendingTextures ≠ [] := by
      intro hnil; simp [hnil] at hu
    have hds := hd0 hne
    have herase : s.pendingTextures.eraseIdx i = [] := by
      rcases length_le_one_cases _ hpt with h0 | ⟨a, h1⟩
      · exact absurd h0 hne
      · rw [h1] at hu ⊢
        cases i with
        | zero => rfl
        | succ j => simp at hu
    unfold applyDecal.onLoad
    cases hmm : s.mainMesh with
    | none =>
      refine ⟨⟨hm, hd⟩, hpm, by simp [herase], ?_, ?_⟩
      · intro hp; simpa [hmm] using hm0 hp
      · intro hp; exact absurd herase hp
    | some mesh =>
      have hpm0 : s.pendingModels = [] := by
        by_contra hp
        have := (hm0 hp).2
        rw [hmm] at this
        cases this
      refine ⟨⟨by simpa using hm, Or.inr ⟨_, rfl, by simp [hds]⟩⟩, hpm, by simp [herase], ?_, ?_⟩
      · intro hp; exact absurd hpm0 hp
      · intro hp; exact absurd herase hp

theorem textureFailed_serialInv (i : Nat) (err : String) (s : State) (h : SerialInv s) :
    SerialInv (step s (.textureFailed i err)) := by
  cases hu : s.pendingTextures[i]? with
  | none => simpa [step, hu] using h
  | some u =>
    simp only [step, hu]
    obtain ⟨hc, hpm, hpt, hm0, hd0⟩ := h
    refine ⟨hc, hpm, le_trans (eraseIdx_length_le _ _) hpt, hm0, ?_⟩
    intro hne
    apply hd0
    intro hnil
    apply hne
    show s.pendingTextures.eraseIdx i = []
    simp [hnil]

theorem changeModelColor_serialInv (c : Color) (s : State) (h : SerialInv s) :
    SerialInv (changeModelColor c s) := by
  unfold changeModelColor
  cases hcm : s.currentModel with
  | none => simpa [hcm] using h
  | some m =>
    obtain ⟨⟨hm, hd⟩, hpm, hpt, hm0, hd0⟩ := h
    refine ⟨⟨?_, hd⟩, hpm, hpt, hm0, hd0⟩
    rcases hm with hm | ⟨m1, h1, h2⟩
    · exact Or.inl hm
    · rw [hcm] at h1
      cases h1
      exact Or.inr ⟨_, rfl, by simpa [Object3D.traverse_id] using h2⟩

theorem step_serialInv (s : State) (e : Event) (h : SerialInv s)
    (ha : e.admissible s = true) : SerialInv (step s e) := by
  cases e with
  | loadModel url =>
    exact loadModel_serialInv url s h (by simpa [Event.admissible] using ha)
  | applyDecal url =>
    exact applyDecal_serialInv url s h (by simpa [Event.admissible] using ha)
  | changeModelColor c => exact changeModelColor_serialInv c s h
  | gltfLoaded i gltf => exact gltfLoaded_serialInv i gltf s h
  | gltfFailed i => exact gltfFailed_serialInv i s h
  | textureLoaded i => exact textureLoaded_serialInv i s h
  | textureFailed i err => exact textureFailed_serialInv i err s h

theorem init_consistent : Consistent init := by
  refine ⟨Or.inl ?_, Or.inl ?_⟩ <;> decide

theorem boot_serialInv : SerialInv boot := by
  obtain ⟨_, _, v3, v4, v5⟩ := loadModel_vars "models/model1.glb" init
  obtain ⟨sm, sd⟩ := loadModel_scene "models/model1.glb" init init_consistent
  refine ⟨⟨Or.inl sm, Or.inl sd⟩, ?_, ?_, ?_, ?_⟩
  · show (loadModel "models/model1.glb" init).pendingModels.length ≤ 1
    rw [v4]; simp [init]
  · show (loadModel "models/model1.glb" init).pendingTextures.length ≤ 1
    rw [v5]; simp [init]
  · intro _; exact ⟨sm, v3⟩
  · intro _; exact sd

theorem runSerial_serialInv (es : List Event) :
    ∀ s t : State, SerialInv s → runSerial s es = some t → SerialInv t := by
  induction es with
  | nil =>
    intro s t h hr
    simp [runSerial] at hr
    exact hr ▸ h
  | cons e es ih =>
    intro s t h hr
    by_cases ha : e.admissible s = true
    · simp [runSerial, ha] at hr
      exact ih _ _ (step_serialInv s e h ha) hr
    · simp [runSerial, ha] at hr

theorem consistent_counts (s : State) (h : Consistent s) :
    (modelsIn s.scene).length ≤ 1 ∧ (decalsIn s.scene).length ≤ 1 := by
  obtain ⟨hm, hd⟩ := h
  constructor
  · rcases hm with hm | ⟨_, _, hm⟩ <;> simp [hm]
  · rcases hd with hd | ⟨_, _, hd⟩ <;> simp [hd]

/-! ## C1: at most one model and one decal overlay -/

/-- C1, counterexample: the claim as stated fails.  When a second model is requested while
the default model is still loading and both loads succeed, the reachable state holds two
models in the scene; two overlapping image loads likewise leave two decal overlays. -/
theorem c1_overlap_counterexample :
    (Reachable (run boot overlappingLoads) ∧
      (modelsIn (run boot overlappingLoads).scene).length = 2) ∧
    (Reachable (run boot overlappingDecals) ∧
      (decalsIn (run boot overlappingDecals).scene).length = 2) := by
  refine ⟨⟨⟨_, rfl⟩, ?_⟩, ⟨⟨_, rfl⟩, ?_⟩⟩ <;> decide

/-- C1, amended: in every state reached from start-up by a run in which `loadModel` is
never called while a model load is in flight and `applyDecal` is never called while an
image load is in flight (callbacks completing at any time), the scene contains at most
one loaded model and at most one decal overlay mesh. -/
theorem c1_serial_at_most_one (es : List Event) (s : State)
    (h : runSerial boot es = some s) :
    (modelsIn s.scene).length ≤ 1 ∧ (decalsIn s.scene).length ≤ 1 :=
  consistent_counts s (runSerial_serialInv es boot s boot_serialInv h).1

/-- C1, amended claim at the run `serialRun`. -/
theorem c1_serial_at_most_one_witness :
    runSerial boot serialRun = some (run boot serialRun) ∧
    (modelsIn (run boot serialRun).scene).length ≤ 1 ∧
    (decalsIn (run boot serialRun).scene).length ≤ 1 :=
  ⟨rfl, c1_serial_at_most_one serialRun (run boot serialRun) rfl⟩

/-! ## C2: a second decal replaces the first -/

/-- C2, evaluation at the failing run `twoDecals`: after decal `p1` and then decal `p2`
were applied, the scene holds exactly one overlay, the one built from `p2`, but neither
the geometry nor the material of the overlay built from `p1` was disposed: nothing at
all was disposed. -/
theorem c2_first_overlay_not_disposed :
    ∃ d1 d2 : DecalMesh,
      (run boot oneDecal).decalMesh = some d1 ∧ d1.material.map.url = "patterns/p1.png" ∧
      (run boot twoDecals).decalMesh = some d2 ∧ d2.material.map.url = "patterns/p2.png" ∧
      decalsIn (run boot twoDecals).scene = [SceneObj.decal d2.id] ∧
      d1.geometry.id ∉ (run boot twoDecals).disposedGeometries ∧
      d1.material.id ∉ (run boot twoDecals).disposedMaterials ∧
      (run boot twoDecals).disposedGeometries = [] ∧
      (run boot twoDecals).disposedMaterials = [] := by
  refine ⟨_, _, rfl, ?_, rfl, ?_, ?_, ?_, ?_, ?_, ?_⟩ <;> decide

/-- No path of `applyDecal` disposes anything: neither the synchronous part nor the two
callbacks touch the disposed geometries and materials. -/
theorem applyDecal_disposes_nothing (s : State) (imageUrl err : String) (i : Nat) :
    (applyDecal imageUrl s).disposedGeometries = s.disposedGeometries ∧
    (applyDecal imageUrl s).disposedMaterials = s.disposedMaterials ∧
    (step s (.textureLoaded i)).disposedGeometries = s.disposedGeometries ∧
    (step s (.textureLoaded i)).disposedMaterials = s.disposedMaterials ∧
    (step s (.textureFailed i err)).disposedGeometries = s.disposedGeometries ∧
    (step s (.textureFailed i err)).disposedMaterials = s.disposedMaterials := by
  refine ⟨?_, ?_, ?_, ?_, ?_, ?_⟩
  · unfold applyDecal; split
    · rfl
    · cases s.decalMesh <;> rfl
  · unfold applyDecal; split
    · rfl
    · cases s.decalMesh <;> rfl
  · cases hu : s.pendingTextures[i]? with
    | none => simp [step, hu]
    | some u => cases hm : s.mainMesh <;> simp [step, hu, applyDecal.onLoad, hm]
  · cases hu : s.pendingTextures[i]? with
    | none => simp [step, hu]
    | some u => cases hm : s.mainMesh <;> simp [step, hu, applyDecal.onLoad, hm]
  · cases hu : s.pendingTextures[i]? with
    | none => simp [step, hu]
    | some u => simp [step, hu, applyDecal.onError]
  · cases hu : s.pendingTextures[i]? with
    | none => simp [step, hu]
    | some u => simp [step, hu, applyDecal.onError]

/-! ## C3: applying a decal without a model -/

/-- C3: in every session state in which `currentModel` is null or `mainMesh` is null,
`applyDecal(imageUrl)` raises the alert and changes nothing else: the scene's children,
`currentModel`, `decalMesh` and `mainMesh` are unchanged and no image load is started. -/
theorem c3_applyDecal_without_model (s : State) (imageUrl : String)
    (h : s.currentModel = none ∨ s.mainMesh = none) :
    applyDecal imageUrl s = { s with alerts := s.alerts ++ ["请先加载模型！"] } ∧
    (applyDecal imageUrl s).scene = s.scene ∧
    (applyDecal imageUrl s).currentModel = s.currentModel ∧
    (applyDecal imageUrl s).decalMesh = s.decalMesh ∧
    (applyDecal imageUrl s).mainMesh = s.mainMesh ∧
    (applyDecal imageUrl s).pendingTextures = s.pendingTextures ∧
    (applyDecal imageUrl s).alerts = s.alerts ++ ["请先加载模型！"] := by
  have hg : (s.currentModel.isNone || s.mainMesh.isNone) = true := by
    rcases h with h | h <;> simp [h]
  simp [applyDecal, hg]

/-- C3 at the start-up state, where the default model is still loading. -/
theorem c3_applyDecal_without_model_witness :
    (boot.currentModel = none ∨ boot.mainMesh = none) ∧
    (applyDecal "patterns/p1.png" boot).scene = boot.scene ∧
    (applyDecal "patterns/p1.png" boot).pendingTextures = boot.pendingTextures ∧
    (applyDecal "patterns/p1.png" boot).alerts = ["请先加载模型！"] :=
  have h := c3_applyDecal_without_model boot "patterns/p1.png" (Or.inl rfl)
  ⟨Or.inl rfl, h.2.1, h.2.2.2.2.2.1, h.2.2.2.2.2.2⟩

/-! ## C4: loading a model replaces model and decal -/

/-- C4, counterexample: the claim as stated fails in a reachable state.  After two
overlapping model loads the scene holds two models; a further `loadModel` with a
successful load removes only `currentModel`, so two models are in the scene afterwards. -/
theorem c4_two_models_counterexample :
    Reachable (run boot overlappingLoads) ∧
    (modelsIn (step (loadModel "models/model3.glb" (run boot overlappingLoads))
      (.gltfLoaded (run boot overlappingLoads).pendingModels.length gltfC)).scene).length = 2 := by
  refine ⟨⟨_, rfl⟩, ?_⟩
  decide

/-- C4, amended: for every session state whose scene holds no model other than
`currentModel` and no decal overlay other than `decalMesh`, after `loadModel(B)` is
called and its load completes successfully (before any other event), the scene contains
exactly one model, B, which is `currentModel`, and no decal overlay, `decalMesh` is null,
and the geometry and material of the previous `decalMesh` were disposed. -/
theorem c4_loadModel_replaces (s : State) (url : String) (gltf : GLTF) (h : Consistent s) :
    modelsIn (step (loadModel url s) (.gltfLoaded s.pendingModels.length gltf)).scene =
      [SceneObj.model gltf.scene.id] ∧
    (∃ m, (step (loadModel url s) (.gltfLoaded s.pendingModels.length gltf)).currentModel =
        some m ∧ m.root = gltf.scene) ∧
    decalsIn (step (loadModel url s) (.gltfLoaded s.pendingModels.length gltf)).scene = [] ∧
    (step (loadModel url s) (.gltfLoaded s.pendingModels.length gltf)).decalMesh = none ∧
    (∀ d, s.decalMesh = some d →
      d.geometry.id ∈
        (step (loadModel url s) (.gltfLoaded s.pendingModels.length gltf)).disposedGeometries ∧
      d.material.id ∈
        (step (loadModel url s) (.gltfLoaded s.pendingModels.length gltf)).disposedMaterials) := by
  obtain ⟨_, v2, _, v4, _⟩ := loadModel_vars url s
  obtain ⟨sm, sd⟩ := loadModel_scene url s h
  have hp : (loadModel url s).pendingModels[s.pendingModels.length]? = some url := by
    rw [v4]; simp
  simp only [step, hp, loadModel_onLoad_eq]
  refine ⟨by simp [sm], ⟨_, rfl, rfl⟩, by simpa using sd, v2, ?_⟩
  intro d hd
  unfold loadModel
  cases hc : s.currentModel <;> simp [hc, hd]

/-- C4, amended claim at the state reached by `oneDecal` (one model, one decal). -/
theorem c4_loadModel_replaces_witness :
    Consistent (run boot oneDecal) ∧
    modelsIn (step (loadModel "models/model2.glb" (run boot oneDecal))
      (.gltfLoaded (run boot oneDecal).pendingModels.length gltfB)).scene =
      [SceneObj.model gltfB.scene.id] :=
  have hc : Consistent (run boot oneDecal) :=
    ⟨Or.inr ⟨_, rfl, by decide⟩, Or.inr ⟨_, rfl, by decide⟩⟩
  ⟨hc, (c4_loadModel_replaces (run boot oneDecal) "models/model2.glb" gltfB hc).1⟩

/-! ## C5: uniform scale -/

/-- The expression `Math.max(size.x, size.y, size.z)` is the largest dimension of the box. -/
theorem maxDim_isLargest (v : Vector3) : IsLargestDim v (maxDim v) := by
  refine ⟨⟨?_, ?_, ?_⟩, ?_⟩
  · exact le_trans (le_max_left _ _) (le_max_left _ _)
  · exact le_trans (le_max_right _ _) (le_max_left _ _)
  · exact le_max_right _ _
  · unfold maxDim
    rcases max_choice (max v.x v.y) v.z with h | h
    · rcases max_choice v.x v.y with h1 | h1
      · left; rw [h, h1]
      · right; left; rw [h, h1]
    · right; right; exact h

/-- The largest dimension of a box is unique, so it is the value the code computes. -/
theorem isLargestDim_eq_maxDim (v : Vector3) (d : ℚ) (h : IsLargestDim v d) :
    maxDim v = d := by
  obtain ⟨⟨hx, hy, hz⟩, hd⟩ := h
  apply le_antisymm
  · exact max_le (max_le hx hy) hz
  · rcases hd with hd | hd | hd
    · rw [hd]; exact le_trans (le_max_left _ _) (le_max_left _ _)
    · rw [hd]; exact le_trans (le_max_right _ _) (le_max_left _ _)
    · rw [hd]; exact le_max_right _ _

/-- Scaling every extent of a box by `20 / d`, where `d > 0` is its largest dimension,
gives a box whose largest dimension is 20. -/
theorem isLargestDim_scaled (v : Vector3) (d : ℚ) (h : IsLargestDim v d) (hpos : 0 < d) :
    IsLargestDim { x := 20 / d * v.x, y := 20 / d * v.y, z := 20 / d * v.z } 20 := by
  obtain ⟨⟨hx, hy, hz⟩, hd⟩ := h
  have hk : (0 : ℚ) ≤ 20 / d := by positivity
  have hkd : 20 / d * d = 20 := div_mul_cancel₀ _ (ne_of_gt hpos)
  refine ⟨⟨?_, ?_, ?_⟩, ?_⟩
  · calc 20 / d * v.x ≤ 20 / d * d := mul_le_mul_of_nonneg_left hx hk
      _ = 20 := hkd
  · calc 20 / d * v.y ≤ 20 / d * d := mul_le_mul_of_nonneg_left hy hk
      _ = 20 := hkd
  · calc 20 / d * v.z ≤ 20 / d * d := mul_le_mul_of_nonneg_left hz hk
      _ = 20 := hkd
  · rcases hd with hd | hd | hd
    · left; show (20 : ℚ) = 20 / d * v.x; rw [← hd, hkd]
    · right; left; show (20 : ℚ) = 20 / d * v.y; rw [← hd, hkd]
    · right; right; show (20 : ℚ) = 20 / d * v.z; rw [← hd, hkd]

/-- C5: for every successfully loaded model whose bounding box has largest dimension
`d > 0` (no extent exceeds `d`, and `d` is one of the extents), the load callback sets the
scale to `20 / d` on all three axes and the position to (0, -5, 0); the bounding box of the
normalized model then has largest dimension 20: no extent exceeds 20 and one of them is
20, and `d * (20 / d) = 20`. -/
theorem c5_uniform_scale (s : State) (gltf : GLTF) (d : ℚ)
    (hd : IsLargestDim gltf.boxSize d) (hpos : 0 < d) :
    ∃ m, (loadModel.onLoad gltf s).currentModel = some m ∧
      m.scale = { x := 20 / d, y := 20 / d, z := 20 / d } ∧
      m.position = { x := 0, y := -5, z := 0 } ∧
      IsLargestDim (m.normalizedSize gltf.boxSize) 20 ∧
      ((m.normalizedSize gltf.boxSize).x ≤ 20 ∧ (m.normalizedSize gltf.boxSize).y ≤ 20 ∧
        (m.normalizedSize gltf.boxSize).z ≤ 20) ∧
      d * (20 / d) = 20 := by
  have hmax : maxDim gltf.boxSize = d := isLargestDim_eq_maxDim _ _ hd
  have hL := isLargestDim_scaled gltf.boxSize d hd hpos
  rw [loadModel_onLoad_eq, hmax]
  exact ⟨_, rfl, rfl, rfl, hL, hL.1, mul_div_cancel₀ _ (ne_of_gt hpos)⟩

/-- C5 at the sample asset `gltfA`, a box of size 4 x 10 x 2 whose largest dimension is
10: the scale is 2 and the normalized box is 8 x 20 x 4. -/
theorem c5_uniform_scale_witness :
    (IsLargestDim gltfA.boxSize 10 ∧ (0 : ℚ) < 10) ∧
    ∃ m, (loadModel.onLoad gltfA boot).currentModel = some m ∧
      m.scale = { x := 20 / 10, y := 20 / 10, z := 20 / 10 } ∧
      m.position = { x := 0, y := -5, z := 0 } ∧
      IsLargestDim (m.normalizedSize gltfA.boxSize) 20 ∧
      ((m.normalizedSize gltfA.boxSize).x ≤ 20 ∧ (m.normalizedSize gltfA.boxSize).y ≤ 20 ∧
        (m.normalizedSize gltfA.boxSize).z ≤ 20) ∧
      (10 : ℚ) * (20 / 10) = 20 :=
  have h : IsLargestDim gltfA.boxSize 10 := by
    refine ⟨⟨?_, ?_, ?_⟩, Or.inr (Or.inl ?_)⟩ <;> norm_num [gltfA]
  have hpos : (0 : ℚ) < 10 := by norm_num
  ⟨⟨h, hpos⟩, c5_uniform_scale boot gltfA 10 h hpos⟩

/-! ## C6: the primary surface -/

/-- Load callback run while `mainMesh` is null: `mainMesh` becomes the first mesh of the
loaded hierarchy in depth-first pre-order, or stays null when there is none. -/
theorem onLoad_mainMesh_of_none (gltf : GLTF) (s : State) (h : s.mainMesh = none) :
    (loadModel.onLoad gltf s).mainMesh = (firstMesh gltf.scene).map Object3D.id := by
  rw [loadModel_onLoad_eq]
  simp [h]

/-- Load callback run while `mainMesh` is set: `mainMesh` is left as it is. -/
theorem onLoad_mainMesh_of_some (gltf : GLTF) (s : State) (x : Nat) (h : s.mainMesh = some x) :
    (loadModel.onLoad gltf s).mainMesh = some x := by
  rw [loadModel_onLoad_eq]
  simp [h]

/-- C6, evaluation at the failing run `overlappingLoads`: the default model (asset
`gltfA`) is still loading when a second model (asset `gltfB`) is requested, and both
loads succeed in request order.  After the callback for `gltfB` completed,
`currentModel` is the hierarchy of `gltfB` (root 200), whose first mesh is node 202, but
`mainMesh` is node 101, the mesh of `gltfA`. -/
theorem c6_stale_mainMesh :
    (run boot overlappingLoads).currentModel.map (fun m => m.root.id) = some 200 ∧
    (firstMesh gltfB.scene).map Object3D.id = some 202 ∧
    (firstMesh gltfA.scene).map Object3D.id = some 101 ∧
    (run boot overlappingLoads).mainMesh = some 101 ∧
    (run boot overlappingLoads).mainMesh ≠ (firstMesh gltfB.scene).map Object3D.id := by
  refine ⟨?_, ?_, ?_, ?_, ?_⟩ <;> decide

/-! ## C7: recolouring -/

/-- C7: for every loaded model and every colour `c`, after `changeModelColor(c)` the
nodes of the hierarchy are the same in pre-order, every mesh node carries the material
constructed from `c` (base colour `c`, emissive `c` scaled by 0.2, emissiveIntensity 0.5,
roughness 0.5), every non-mesh node keeps its material slot, and the rest of the session
is unchanged; when no model is loaded the call changes nothing. -/
theorem c7_changeModelColor (c : Color) (s : State) :
    (∀ m, s.currentModel = some m →
      ∃ m', (changeModelColor c s).currentModel = some m' ∧
        m'.root.preorder.map Object3D.header =
          m.root.preorder.map (fun n =>
            (n.id, n.isMesh, if n.isMesh then some (recolorMaterial c) else n.material)) ∧
        (∀ n ∈ m'.root.preorder, n.isMesh = true →
          ∃ mat, n.material = some mat ∧ mat.color = c ∧
            mat.emissive = { r := c.r * 0.2, g := c.g * 0.2, b := c.b * 0.2 } ∧
            mat.emissiveIntensity = 0.5 ∧ mat.roughness = 0.5) ∧
        m'.scale = m.scale ∧ m'.position = m.position ∧
        (changeModelColor c s).scene = s.scene ∧
        (changeModelColor c s).decalMesh = s.decalMesh ∧
        (changeModelColor c s).mainMesh = s.mainMesh) ∧
    (s.currentModel = none → changeModelColor c s = s) := by
  constructor
  · intro m hm
    have hlist := Object3D.traverse_recolor c m.root
    refine ⟨{ m with root := (Object3D.traverse (changeModelColor.visit c) m.root ()).1 },
      by simp [changeModelColor, hm], hlist, ?_, rfl, rfl, ?_, ?_, ?_⟩
    · intro n hn hmesh
      have hmem : n.header ∈
          (Object3D.traverse (changeModelColor.visit c) m.root ()).1.preorder.map
            Object3D.header := List.mem_map_of_mem _ hn
      rw [hlist] at hmem
      obtain ⟨n0, _, h0⟩ := List.mem_map.mp hmem
      simp only [Object3D.header, Prod.mk.injEq] at h0
      obtain ⟨_, hb, hmat⟩ := h0
      rw [hb, hmesh] at hmat
      exact ⟨recolorMaterial c, by simpa using hmat.symm, rfl, rfl, rfl, rfl⟩
    · simp [changeModelColor, hm]
    · simp [changeModelColor, hm]
    · simp [changeModelColor, hm]
  · intro hn
    simp [changeModelColor, hn]

/-- C7 at the state reached by `serialRun` without its recolouring, where the asset
`gltfB` is loaded, and at the start-up state, where no model is loaded. -/
theorem c7_changeModelColor_witness :
    (∃ m', (changeModelColor { r := 1, g := 0, b := 0 }
        (loadModel.onLoad gltfB boot)).currentModel = some m' ∧
      ∀ n ∈ m'.root.preorder, n.isMesh = true →
        ∃ mat, n.material = some mat ∧ mat.color = { r := 1, g := 0, b := 0 }) ∧
    changeModelColor { r := 1, g := 0, b := 0 } boot = boot :=
  have h := c7_changeModelColor { r := 1, g := 0, b := 0 } (loadModel.onLoad gltfB boot)
  have h0 := c7_changeModelColor { r := 1, g := 0, b := 0 } boot
  ⟨by
      obtain ⟨m', h1, _, h3, _⟩ := h.1 _ (by rw [loadModel_onLoad_eq])
      exact ⟨m', h1, fun n hn hm => by
        obtain ⟨mat, e1, e2, _⟩ := h3 n hn hm
        exact ⟨mat, e1, e2⟩⟩,
   h0.2 rfl⟩

/-! ## C8: failed model load -/

/-- C8, counterexample: the claim as stated fails in a reachable state.  After two
overlapping model loads the scene holds two models; `loadModel` removes only
`currentModel`, so after the call, and after its load failed, a model is still in the
scene. -/
theorem c8_model_left_counterexample :
    Reachable (run boot overlappingLoads) ∧
    modelsIn (loadModel "models/missing.glb" (run boot overlappingLoads)).scene =
      [SceneObj.model 100] ∧
    modelsIn (step (loadModel "models/missing.glb" (run boot overlappingLoads))
      (.gltfFailed (run boot overlappingLoads).pendingModels.length)).scene =
      [SceneObj.model 100] := by
  refine ⟨⟨_, rfl⟩, ?_, ?_⟩ <;> decide

/-- C8, amended: for every session state whose scene holds no model other than
`currentModel` and no decal overlay other than `decalMesh`, if `loadModel(url)` is called
and the asset fails to load, no model is installed: after the call the scene contains no
model and no decal overlay and `currentModel`, `decalMesh` and `mainMesh` are null, and
all of this still holds once the load has failed. -/
theorem c8_failed_load (s : State) (url : String) (h : Consistent s) :
    (modelsIn (loadModel url s).scene = [] ∧ decalsIn (loadModel url s).scene = [] ∧
      (loadModel url s).currentModel = none ∧ (loadModel url s).decalMesh = none ∧
      (loadModel url s).mainMesh = none) ∧
    (modelsIn (step (loadModel url s) (.gltfFailed s.pendingModels.length)).scene = [] ∧
      decalsIn (step (loadModel url s) (.gltfFailed s.pendingModels.length)).scene = [] ∧
      (step (loadModel url s) (.gltfFailed s.pendingModels.length)).currentModel = none ∧
      (step (loadModel url s) (.gltfFailed s.pendingModels.length)).decalMesh = none ∧
      (step (loadModel url s) (.gltfFailed s.pendingModels.length)).mainMesh = none ∧
      (step (loadModel url s) (.gltfFailed s.pendingModels.length)).pendingModels =
        s.pendingModels) := by
  obtain ⟨v1, v2, v3, v4, _⟩ := loadModel_vars url s
  obtain ⟨sm, sd⟩ := loadModel_scene url s h
  refine ⟨⟨sm, sd, v1, v2, v3⟩, sm, sd, v1, v2, v3, ?_⟩
  show (loadModel url s).pendingModels.eraseIdx s.pendingModels.length = s.pendingModels
  rw [v4]
  exact eraseIdx_append_singleton _ _

/-- C8, amended claim at the state reached by `oneDecal` (one model, one decal). -/
theorem c8_failed_load_witness :
    Consistent (run boot oneDecal) ∧
    modelsIn (step (loadModel "models/missing.glb" (run boot oneDecal))
      (.gltfFailed (run boot oneDecal).pendingModels.length)).scene = [] ∧
    (step (loadModel "models/missing.glb" (run boot oneDecal))
      (.gltfFailed (run boot oneDecal).pendingModels.length)).currentModel = none :=
  have hc : Consistent (run boot oneDecal) :=
    ⟨Or.inr ⟨_, rfl, by decide⟩, Or.inr ⟨_, rfl, by decide⟩⟩
  have h := c8_failed_load (run boot oneDecal) "models/missing.glb" hc
  ⟨hc, h.2.1, h.2.2.2.1⟩

/-! ## C9: failed image load -/

/-- C9, evaluation at the failing run `decalThenFailure`: a decal is on the model when a
second `applyDecal` is called and its image fails to load.  The failure is logged and the
scene holds no decal overlay, but `decalMesh` still refers to the first overlay, which
was not disposed. -/
theorem c9_stale_decalMesh :
    ∃ d : DecalMesh,
      (run boot oneDecal).decalMesh = some d ∧
      (run boot decalThenFailure).decalMesh = some d ∧
      decalsIn (run boot decalThenFailure).scene = [] ∧
      (run boot decalThenFailure).errors = [("贴图加载失败：", "404")] ∧
      d.geometry.id ∉ (run boot decalThenFailure).disposedGeometries ∧
      d.material.id ∉ (run boot decalThenFailure).disposedMaterials := by
  refine ⟨_, rfl, rfl, ?_, ?_, ?_, ?_⟩ <;> decide

/-! ## C10: the installed overlay -/

/-- C10: for every state with a model and a primary surface, after `applyDecal(imageUrl)`
is called and its image load succeeds, `decalMesh` is a new overlay that is in the scene,
built by projecting onto `mainMesh` with position (10, 1, 1), rotation (0, pi/2, 0) and
size (15, 15, 20); its material has the loaded image as map, depthWrite false,
polygonOffset true and polygonOffsetFactor -4. -/
theorem c10_installed_overlay (s : State) (imageUrl : String) (m : Model) (mesh : Nat)
    (hm : s.currentModel = some m) (hs : s.mainMesh = some mesh) :
    ∃ d, (step (applyDecal imageUrl s) (.textureLoaded s.pendingTextures.length)).decalMesh =
        some d ∧
      SceneObj.decal d.id ∈
        (step (applyDecal imageUrl s) (.textureLoaded s.pendingTextures.length)).scene ∧
      d.id = s.nextId + 2 ∧
      d.geometry.mesh = mesh ∧
      d.geometry.position = { x := 10, y := 1, z := 1 } ∧
      d.geometry.orientation = { xOverPi := 0, yOverPi := 1 / 2, zOverPi := 0 } ∧
      d.geometry.size = { x := 15, y := 15, z := 20 } ∧
      d.material.map.url = imageUrl ∧
      d.material.depthWrite = false ∧
      d.material.polygonOffset = true ∧
      d.material.polygonOffsetFactor = -4 := by
  have hg : (s.currentModel.isNone || s.mainMesh.isNone) = false := by simp [hm, hs]
  obtain ⟨hp, hmm, hn, _, _⟩ := applyDecal_pass imageUrl s hg
  have hlook : (applyDecal imageUrl s).pendingTextures[s.pendingTextures.length]? =
      some imageUrl := by
    rw [hp]; simp
  simp only [step, hlook]
  simp [applyDecal.onLoad, hmm, hs, hn, sceneAdd, Texture.loaded]

/-- C10 at the state where the default model (asset `gltfA`) has loaded. -/
theorem c10_installed_overlay_witness :
    (loadModel.onLoad gltfA init).mainMesh = some 101 ∧
    ∃ d, (step (applyDecal "patterns/p1.png" (loadModel.onLoad gltfA init))
        (.textureLoaded (loadModel.onLoad gltfA init).pendingTextures.length)).decalMesh =
        some d ∧
      d.geometry.mesh = 101 ∧ d.material.map.url = "patterns/p1.png" ∧
      d.material.depthWrite = false :=
  have h := c10_installed_overlay (loadModel.onLoad gltfA init) "patterns/p1.png" _ 101
    (by rw [loadModel_onLoad_eq]) (by decide)
  ⟨by decide, by
    obtain ⟨d, h1, _, _, h4, _, _, _, h8, h9, _⟩ := h
    exact ⟨d, h1, h4, h8, h9⟩⟩

end Viewer
